import Mathlib

/-!
Shallow embedding of the admin back-office module `ninetofiver/admin.py` and the
WSGI bootstrap `ninetofiver/wsgi.py` of the 925r repository, together with
proofs about the custom list filters, the bulk actions on leaves and
timesheets, the leave notification email, the polymorphic performance admin
fallbacks, and the environment handling of the WSGI module.

Dates are modelled as integers (only their ordering matters to the code under
study); datetimes carry a date component and a time-of-day component, since the
notification email projects a datetime to its date. Django querysets are
modelled as lists of records; a bulk action receives the list of selected
records. Sending mail can fail: the mail backend is modelled as a boolean
oracle `deliverOk` telling which concrete messages are delivered; a `false`
answer corresponds to `send_mail` raising (the calls pass
`fail_silently=False`). A Python attribute access that can raise is modelled
with `Except`.
-/

/-- A point in time: a date (as an integer day number) plus a time of day.
`date` models the Python `datetime.date()` projection. -/
structure DateTime where
  dateOf : Int
  timeOfDay : Nat
deriving DecidableEq

/-- Python `dt.date()`. -/
def DateTime.date (dt : DateTime) : Int := dt.dateOf

/-- The fields of `auth.User` the admin module reads. -/
structure UserRec where
  first_name : String
  email : String
deriving DecidableEq

/-- Status enumeration of `Leave` (the admin module assigns `APPROVED` and
`REJECTED`; `PENDING` stands for any other pre-existing value). -/
inductive LeaveStatus where
  | PENDING
  | APPROVED
  | REJECTED
deriving DecidableEq

/-- A `LeaveDate` row: the start and end datetimes of one leave day. -/
structure LeaveDate where
  starts_at : DateTime
  ends_at : DateTime
deriving DecidableEq

/-- A `Leave` row, with the related objects the admin module dereferences:
the owning user, the leave type and description (rendered with `str` in the
source, hence modelled as strings), the status, and the related
`leavedate_set` in queryset order. -/
structure Leave where
  user : UserRec
  leave_type : String
  description : String
  status : LeaveStatus
  leavedate_set : List LeaveDate
deriving DecidableEq

/-- An outgoing email as handed to `django.core.mail.send_mail`:
subject, message body, sender address, recipient list and the
`fail_silently` flag. -/
structure Email where
  subject : String
  body : String
  fromAddr : String
  recipients : List String
  fail_silently : Bool
deriving DecidableEq

/-- The message `LeaveAdmin.send_notification_email` builds once the first and
last leave dates are in hand, mirroring the format string of the source. -/
def notificationEmail (leave : Leave) (status : String)
    (firstLd lastLd : LeaveDate) : Email :=
  { subject := leave.leave_type ++ " - " ++ leave.description
  , body := "Dear " ++ leave.user.first_name ++ "\n\nyour " ++ leave.leave_type
      ++ " from \n" ++ toString firstLd.starts_at.date ++ " to "
      ++ toString lastLd.ends_at.date ++ "\nhas been " ++ status
      ++ ".\n\nKind regards\nAn inocent bot"
  , fromAddr := "no-reply@inuits.eu"
  , recipients := [leave.user.email]
  , fail_silently := false }

/-- `LeaveAdmin.send_notification_email`: dereferences
`leave.leavedate_set.first()` and `leave.leavedate_set.last()`; when the
related set is empty both calls return Python `None` and the attribute access
`.starts_at` raises, modelled by `none`. -/
def send_notification_email (leave : Leave) (status : String) : Option Email :=
  match leave.leavedate_set.head?, leave.leavedate_set.getLast? with
  | some f, some l => some (notificationEmail leave status f l)
  | _, _ => none

/-- Convenience: the email `send_notification_email` produces on a leave whose
`leavedate_set` is nonempty (with junk defaults otherwise). -/
def emailOf (leave : Leave) (status : String) : Email :=
  notificationEmail leave status
    (leave.leavedate_set.headD ⟨⟨0, 0⟩, ⟨0, 0⟩⟩)
    (leave.leavedate_set.getLastD ⟨⟨0, 0⟩, ⟨0, 0⟩⟩)

/-- The notification loop of the leave bulk actions: emails are sent one leave
at a time, in queryset order; building the email for a leave without leave
dates raises, and `send_mail` raises when the backend refuses the message
(`deliverOk e = false`). An exception aborts the loop: the pair returned is
the list of messages actually delivered and whether the loop finished without
raising. -/
def sendAll (deliverOk : Email → Bool) (status : String) :
    List Leave → List Email × Bool
  | [] => ([], true)
  | l :: rest =>
    match send_notification_email l status with
    | none => ([], false)
    | some e =>
      if deliverOk e then
        let r := sendAll deliverOk status rest
        (e :: r.1, r.2)
      else ([], false)

/-- `LeaveAdmin.make_approved`: first `queryset.update(status=APPROVED)`
updates every selected row, then the queryset (re-fetched, hence already
approved) is iterated and a notification email is sent per leave. Returns the
selected rows after the action, the delivered emails, and whether no exception
escaped. -/
def make_approved (deliverOk : Email → Bool) (queryset : List Leave) :
    List Leave × List Email × Bool :=
  let updated := queryset.map (fun l => { l with status := LeaveStatus.APPROVED })
  let r := sendAll deliverOk "approved" updated
  (updated, r.1, r.2)

/-- `LeaveAdmin.make_rejected`: same shape as `make_approved` with status
`REJECTED` and message status string rejected. -/
def make_rejected (deliverOk : Email → Bool) (queryset : List Leave) :
    List Leave × List Email × Bool :=
  let updated := queryset.map (fun l => { l with status := LeaveStatus.REJECTED })
  let r := sendAll deliverOk "rejected" updated
  (updated, r.1, r.2)

/-- The `actions` attribute of `LeaveAdmin`. -/
def LeaveAdmin.actions : List String := ["make_approved", "make_rejected"]

/-- Status enumeration of `Timesheet` as assigned by `TimesheetAdmin`. -/
inductive TimesheetStatus where
  | ACTIVE
  | PENDING
  | CLOSED
deriving DecidableEq

/-- A `Timesheet` row: primary key, owning user, month, year and status. -/
structure Timesheet where
  id : Nat
  user : String
  month : Nat
  year : Nat
  status : TimesheetStatus
deriving DecidableEq

/-- `TimesheetAdmin.make_closed`: `queryset.update(status=CLOSED)` on the
selected rows. The database is the list `db`; `selected` tells which primary
keys the admin selection contains. The action sends no mail, so the email
component of the result is what the body emits: nothing. -/
def make_closed (db : List Timesheet) (selected : Nat → Bool) :
    List Timesheet × List Email :=
  (db.map (fun t =>
    if selected t.id then { t with status := TimesheetStatus.CLOSED } else t), [])

/-- `TimesheetAdmin.make_active`: `queryset.update(status=ACTIVE)`. -/
def make_active (db : List Timesheet) (selected : Nat → Bool) :
    List Timesheet × List Email :=
  (db.map (fun t =>
    if selected t.id then { t with status := TimesheetStatus.ACTIVE } else t), [])

/-- `TimesheetAdmin.make_pending`: `queryset.update(status=PENDING)`. -/
def make_pending (db : List Timesheet) (selected : Nat → Bool) :
    List Timesheet × List Email :=
  (db.map (fun t =>
    if selected t.id then { t with status := TimesheetStatus.PENDING } else t), [])

/-- The `actions` attribute of `TimesheetAdmin`, each name paired with the
action it refers to. -/
def TimesheetAdmin.actions :
    List (String × (List Timesheet → (Nat → Bool) → List Timesheet × List Email)) :=
  [("make_closed", make_closed), ("make_active", make_active),
   ("make_pending", make_pending)]

/-- An `EmploymentContract` row, with the date fields the status filter
compares: `started_at` is mandatory, `ended_at` nullable. -/
structure EmploymentContract where
  user : String
  company : String
  started_at : Int
  ended_at : Option Int
deriving DecidableEq

/-- `EmploymentContractStatusFilter.queryset`: branches on the selected filter
value. Django field lookups on a nullable column never match NULL, so
`ended_at__lte` and `ended_at__gte` are false on a null `ended_at`, while
`ended_at__isnull=True` matches exactly the null rows. When no branch applies
the method returns Python `None`, modelled as `none`. -/
def EmploymentContractStatusFilter.queryset (today : Int) (value : Option String)
    (qs : List EmploymentContract) : Option (List EmploymentContract) :=
  if value = some "active" then
    some (qs.filter (fun c =>
      decide (c.started_at ≤ today) &&
      (match c.ended_at with
       | some e => decide (e ≥ today)
       | none => true)))
  else if value = some "ended" then
    some (qs.filter (fun c =>
      match c.ended_at with
      | some e => decide (e ≤ today)
      | none => false))
  else if value = some "future" then
    some (qs.filter (fun c => decide (c.started_at ≥ today)))
  else
    none

/-- A `Contract` row with the fields `ContractStatusFilter` inspects:
`starts_at` mandatory, `ends_at` nullable, plus the boolean `active` flag. -/
structure Contract where
  name : String
  starts_at : Int
  ends_at : Option Int
  active : Bool
deriving DecidableEq

/-- `ContractStatusFilter.queryset`: like the employment-contract filter but
the active branch additionally requires `active=True` and the ended branch is
a disjunction with `active=False`. -/
def ContractStatusFilter.queryset (today : Int) (value : Option String)
    (qs : List Contract) : Option (List Contract) :=
  if value = some "active" then
    some (qs.filter (fun c =>
      (decide (c.starts_at ≤ today) &&
       (match c.ends_at with
        | some e => decide (e ≥ today)
        | none => true)) &&
      c.active))
  else if value = some "ended" then
    some (qs.filter (fun c =>
      (match c.ends_at with
       | some e => decide (e ≤ today)
       | none => false) || !c.active))
  else if value = some "future" then
    some (qs.filter (fun c => decide (c.starts_at ≥ today)))
  else
    none

/-- How the admin changelist consumes a list filter: a `None` return from
`queryset` leaves the queryset untouched. -/
def applyListFilter {α : Type} (r : Option (List α)) (qs : List α) : List α :=
  match r with
  | some r2 => r2
  | none => qs

/-- An `ActivityPerformance` row: the subtype fields the parent admin
renders. -/
structure ActivityPerformance where
  duration : Int
  contract : Contract
  performance_type : String
  description : String
  contract_role : String
deriving DecidableEq

/-- A `Performance` row as seen by the parent admin. The attribute access
`obj.activityperformance` resolves the polymorphic subtype: it may yield the
related `ActivityPerformance`, yield Python `None`, or raise; an `Except.error`
models the raising access. -/
structure Performance where
  timesheet : Nat
  day : Int
  activityperformance_access : Except Unit (Option ActivityPerformance)

/-- The `try/except` prologue shared by the `PerformanceParentAdmin` column
methods: `activity = getattr(obj, ..., None)` with every exception suppressed
into `activity = None`. -/
def resolveActivity (p : Performance) : Option ActivityPerformance :=
  match p.activityperformance_access with
  | Except.error _ => none
  | Except.ok a => a

/-- The value an admin column renders: a field value, Python `None`, or a
translated label string. -/
inductive AdminCell (α : Type) where
  | value (a : α)
  | nullCell
  | label (s : String)
deriving DecidableEq

/-- `PerformanceParentAdmin.duration`: the subtype duration, or `None`. -/
def PerformanceParentAdmin.duration (p : Performance) : AdminCell Int :=
  match resolveActivity p with
  | some a => AdminCell.value a.duration
  | none => AdminCell.nullCell

/-- `PerformanceParentAdmin.contract`: the subtype contract, or the
translated label Standby. -/
def PerformanceParentAdmin.contract (p : Performance) : AdminCell Contract :=
  match resolveActivity p with
  | some a => AdminCell.value a.contract
  | none => AdminCell.label "Standby"

/-- `PerformanceParentAdmin.performance_type`: the subtype performance type,
or the translated label Standby. -/
def PerformanceParentAdmin.performance_type (p : Performance) : AdminCell String :=
  match resolveActivity p with
  | some a => AdminCell.value a.performance_type
  | none => AdminCell.label "Standby"

/-- `PerformanceParentAdmin.description`: the subtype description, or
`None`. -/
def PerformanceParentAdmin.description (p : Performance) : AdminCell String :=
  match resolveActivity p with
  | some a => AdminCell.value a.description
  | none => AdminCell.nullCell

/-- `PerformanceParentAdmin.contract_role`: the subtype contract role; the
method has no else branch, so Python falls through to an implicit `None`. -/
def PerformanceParentAdmin.contract_role (p : Performance) : AdminCell String :=
  match resolveActivity p with
  | some a => AdminCell.value a.contract_role
  | none => AdminCell.nullCell

/-- Lookup in a process environment, modelled as an association list where the
first binding of a key wins. -/
def envGet : List (String × String) → String → Option String
  | [], _ => none
  | (k, v) :: rest, q => if k = q then some v else envGet rest q

/-- `os.environ.setdefault`: bind `k` to `v` only when `k` is unbound. -/
def setdefault (env : List (String × String)) (k v : String) :
    List (String × String) :=
  match envGet env k with
  | some _ => env
  | none => env ++ [(k, v)]

/-- The WSGI module after import: the environment it leaves behind and its
`application` attribute. -/
structure WSGIModule (App : Type) where
  env : List (String × String)
  application : App

/-- The module body of `ninetofiver/wsgi.py`: two `os.environ.setdefault`
calls, then `application = get_wsgi_application()`. The function
`get_django_configuration` lives in `ninetofiver/utils.py` (outside the
supplied sources) and `get_wsgi_application` in the framework; both are taken
as parameters, the latter reading the environment the module prepared. -/
def wsgiModule {App : Type} (get_django_configuration : Unit → String)
    (get_wsgi_application : List (String × String) → App)
    (env0 : List (String × String)) : WSGIModule App :=
  let env1 := setdefault env0 "DJANGO_SETTINGS_MODULE" "ninetofiver.settings"
  let env2 := setdefault env1 "DJANGO_CONFIGURATION" (get_django_configuration ())
  { env := env2, application := get_wsgi_application env2 }

/-- A concrete timesheet used to exercise the bulk actions. -/
def sampleTimesheet : Timesheet :=
  { id := 1, user := "jdoe", month := 3, year := 2017, status := TimesheetStatus.ACTIVE }

/-- A contract that is active today by its dates and flagged active. -/
def sampleActiveContract : Contract :=
  { name := "c", starts_at := -1, ends_at := none, active := true }

/-- The same contract dates with the active flag cleared. -/
def sampleInactiveContract : Contract :=
  { name := "c", starts_at := -1, ends_at := none, active := false }

/-- An employment contract ending exactly today (today is modelled as 0). -/
def ecBoundaryEnd : EmploymentContract :=
  { user := "u", company := "k", started_at := -5, ended_at := some 0 }

/-- An employment contract starting exactly today. -/
def ecBoundaryStart : EmploymentContract :=
  { user := "u", company := "k", started_at := 0, ended_at := none }

/-- An active-flagged contract ending exactly today. -/
def cBoundaryEnd : Contract :=
  { name := "k", starts_at := -5, ends_at := some 0, active := true }

/-- An active-flagged contract starting exactly today. -/
def cBoundaryStart : Contract :=
  { name := "k", starts_at := 0, ends_at := none, active := true }

/-- A performance whose polymorphic attribute access raises. -/
def samplePerformance : Performance :=
  { timesheet := 1, day := 3, activityperformance_access := Except.error () }

/-- A leave with one leave date, used to exercise the bulk actions. -/
def sampleLeave : Leave :=
  { user := { first_name := "Ann", email := "ann@example.com" }
  , leave_type := "Vacation"
  , description := "trip"
  , status := LeaveStatus.PENDING
  , leavedate_set := [{ starts_at := ⟨10, 9⟩, ends_at := ⟨12, 17⟩ }] }

/-- A second leave with one leave date and a distinct user. -/
def sampleLeaveTwo : Leave :=
  { user := { first_name := "Bob", email := "bob@example.com" }
  , leave_type := "Sickness"
  , description := "flu"
  , status := LeaveStatus.PENDING
  , leavedate_set := [{ starts_at := ⟨20, 8⟩, ends_at := ⟨20, 16⟩ }] }

/-- A leave whose related `leavedate_set` is empty. -/
def sampleLeaveNoDates : Leave :=
  { user := { first_name := "Cat", email := "cat@example.com" }
  , leave_type := "Vacation"
  , description := "void"
  , status := LeaveStatus.PENDING
  , leavedate_set := [] }

/-- What the specification requires of the notification email of one leave:
it is addressed to the email address of the user of the leave, and its content
(subject plus body) carries the leave type, the description, and the date
range running from the date of the first leave date start to the date of the
last leave date end. -/
def leaveEmailSpec (l : Leave) (e : Email) : Prop :=
  e.recipients = [l.user.email] ∧
  e.subject = l.leave_type ++ " - " ++ l.description ∧
  (∃ a b, e.body = a ++ l.leave_type ++ b) ∧
  (∃ a b, e.body =
    a ++ toString (l.leavedate_set.headD ⟨⟨0, 0⟩, ⟨0, 0⟩⟩).starts_at.date
      ++ " to " ++ toString (l.leavedate_set.getLastD ⟨⟨0, 0⟩, ⟨0, 0⟩⟩).ends_at.date
      ++ b)

/-- Pairing a list with its image under a map, element by element. -/
theorem forall2_self_map {α β : Type} (f : α → β) (P : α → β → Prop)
    (h : ∀ a, P a (f a)) : ∀ l : List α, List.Forall₂ P l (l.map f)
  | [] => List.Forall₂.nil
  | a :: l => List.Forall₂.cons (h a) (forall2_self_map f P h l)

/-- Claim C2: the employment contract status filter returns, for the value
active, exactly the records with `started_at <= today` and
(`ended_at >= today` or `ended_at` null); for ended exactly those with a
non-null `ended_at <= today`; for future exactly those with
`started_at >= today`; and with no value selected the queryset is left
unrestricted. -/
theorem employment_contract_status_filter_correct (today : Int)
    (qs : List EmploymentContract) (c : EmploymentContract) :
    (c ∈ applyListFilter
        (EmploymentContractStatusFilter.queryset today (some "active") qs) qs ↔
      c ∈ qs ∧ c.started_at ≤ today ∧
        ((∃ e, c.ended_at = some e ∧ today ≤ e) ∨ c.ended_at = none)) ∧
    (c ∈ applyListFilter
        (EmploymentContractStatusFilter.queryset today (some "ended") qs) qs ↔
      c ∈ qs ∧ ∃ e, c.ended_at = some e ∧ e ≤ today) ∧
    (c ∈ applyListFilter
        (EmploymentContractStatusFilter.queryset today (some "future") qs) qs ↔
      c ∈ qs ∧ today ≤ c.started_at) ∧
    applyListFilter (EmploymentContractStatusFilter.queryset today none qs) qs = qs := by
  refine ⟨?_, ?_, ?_, ?_⟩
  · simp only [EmploymentContractStatusFilter.queryset, applyListFilter]
    simp only [List.mem_filter, reduceIte]
    cases h : c.ended_at <;> simp [h]
  · simp only [EmploymentContractStatusFilter.queryset, applyListFilter]
    simp only [List.mem_filter, reduceIte]
    cases h : c.ended_at <;> simp [h]
  · simp only [EmploymentContractStatusFilter.queryset, applyListFilter]
    simp only [List.mem_filter, reduceIte]
    simp [ge_iff_le]
  · simp [EmploymentContractStatusFilter.queryset, applyListFilter]

/-- Claim C3, counterexample: two contracts with identical start and end dates
but opposite `active` flags are classified differently, so the classification
of `ContractStatusFilter` is not determined by date comparison alone: with the
active selection only the `active=True` record is returned, and with the ended
selection only the `active=False` record is returned. -/
theorem contract_status_filter_uses_active_flag :
    sampleActiveContract.starts_at = sampleInactiveContract.starts_at ∧
    sampleActiveContract.ends_at = sampleInactiveContract.ends_at ∧
    applyListFilter
      (ContractStatusFilter.queryset 0 (some "active")
        [sampleActiveContract, sampleInactiveContract])
      [sampleActiveContract, sampleInactiveContract] = [sampleActiveContract] ∧
    applyListFilter
      (ContractStatusFilter.queryset 0 (some "ended")
        [sampleActiveContract, sampleInactiveContract])
      [sampleActiveContract, sampleInactiveContract] = [sampleInactiveContract] := by
  decide

/-- Claim C3 as amended: the classification of `ContractStatusFilter` is
determined by the date comparisons together with the boolean `active` flag:
the active selection returns exactly the records with `starts_at <= today`,
(`ends_at >= today` or null) and `active=True`; the ended selection exactly
those with a non-null `ends_at <= today` or with `active=False`; the future
selection exactly those with `starts_at >= today` (dates alone). -/
theorem contract_status_filter_classification (today : Int)
    (qs : List Contract) (c : Contract) :
    (c ∈ applyListFilter (ContractStatusFilter.queryset today (some "active") qs) qs ↔
      c ∈ qs ∧ c.starts_at ≤ today ∧
        ((∃ e, c.ends_at = some e ∧ today ≤ e) ∨ c.ends_at = none) ∧
        c.active = true) ∧
    (c ∈ applyListFilter (ContractStatusFilter.queryset today (some "ended") qs) qs ↔
      c ∈ qs ∧ ((∃ e, c.ends_at = some e ∧ e ≤ today) ∨ c.active = false)) ∧
    (c ∈ applyListFilter (ContractStatusFilter.queryset today (some "future") qs) qs ↔
      c ∈ qs ∧ today ≤ c.starts_at) ∧
    applyListFilter (ContractStatusFilter.queryset today none qs) qs = qs := by
  refine ⟨?_, ?_, ?_, ?_⟩
  · simp only [ContractStatusFilter.queryset, applyListFilter]
    simp only [List.mem_filter, reduceIte]
    cases h : c.ends_at <;> simp [h, and_assoc]
  · simp only [ContractStatusFilter.queryset, applyListFilter]
    simp only [List.mem_filter, reduceIte]
    cases h : c.ends_at <;> simp [h]
  · simp only [ContractStatusFilter.queryset, applyListFilter]
    simp only [List.mem_filter, reduceIte]
    simp [ge_iff_le]
  · simp [ContractStatusFilter.queryset, applyListFilter]

/-- Claim C10: the status classifications overlap at the boundaries: an
employment contract ending exactly today is returned by both the active and
the ended selections, one starting exactly today by both the active and the
future selections, and the same overlaps occur for `ContractStatusFilter` on
records whose active flag is set. Today is modelled as day 0. -/
theorem status_filter_boundary_overlap :
    ecBoundaryEnd ∈ applyListFilter
      (EmploymentContractStatusFilter.queryset 0 (some "active") [ecBoundaryEnd])
      [ecBoundaryEnd] ∧
    ecBoundaryEnd ∈ applyListFilter
      (EmploymentContractStatusFilter.queryset 0 (some "ended") [ecBoundaryEnd])
      [ecBoundaryEnd] ∧
    ecBoundaryStart ∈ applyListFilter
      (EmploymentContractStatusFilter.queryset 0 (some "active") [ecBoundaryStart])
      [ecBoundaryStart] ∧
    ecBoundaryStart ∈ applyListFilter
      (EmploymentContractStatusFilter.queryset 0 (some "future") [ecBoundaryStart])
      [ecBoundaryStart] ∧
    cBoundaryEnd ∈ applyListFilter
      (ContractStatusFilter.queryset 0 (some "active") [cBoundaryEnd])
      [cBoundaryEnd] ∧
    cBoundaryEnd ∈ applyListFilter
      (ContractStatusFilter.queryset 0 (some "ended") [cBoundaryEnd])
      [cBoundaryEnd] ∧
    cBoundaryStart ∈ applyListFilter
      (ContractStatusFilter.queryset 0 (some "active") [cBoundaryStart])
      [cBoundaryStart] ∧
    cBoundaryStart ∈ applyListFilter
      (ContractStatusFilter.queryset 0 (some "future") [cBoundaryStart])
      [cBoundaryStart] := by
  decide

/-- Claim C4, counterexample: `TimesheetAdmin` registers a third bulk action,
`make_pending`, which assigns the status `PENDING`; `PENDING` is neither the
open/active status nor the closed status, so the statuses a timesheet bulk
action can assign are not exactly the pair open and closed. -/
theorem timesheet_actions_include_pending :
    TimesheetAdmin.actions.map Prod.fst
      = ["make_closed", "make_active", "make_pending"] ∧
    (make_pending [sampleTimesheet] (fun _ => true)).1.map Timesheet.status
      = [TimesheetStatus.PENDING] ∧
    TimesheetStatus.PENDING ≠ TimesheetStatus.ACTIVE ∧
    TimesheetStatus.PENDING ≠ TimesheetStatus.CLOSED := by
  decide

/-- Claim C4 as amended: `LeaveAdmin` registers exactly two bulk actions and
`TimesheetAdmin` exactly three, and the statuses the three timesheet bulk
actions assign to a selected record are `CLOSED`, `ACTIVE` and `PENDING`
respectively. -/
theorem bulk_action_inventory :
    LeaveAdmin.actions.length = 2 ∧
    TimesheetAdmin.actions.length = 3 ∧
    TimesheetAdmin.actions.map Prod.fst
      = ["make_closed", "make_active", "make_pending"] ∧
    TimesheetAdmin.actions.map
        (fun a => (a.2 [sampleTimesheet] (fun _ => true)).1.map Timesheet.status)
      = [[TimesheetStatus.CLOSED], [TimesheetStatus.ACTIVE],
         [TimesheetStatus.PENDING]] := by
  decide

/-- Claim C5: each timesheet bulk action only rewrites the status field of the
selected records: ids, users, months and years are unchanged everywhere,
unselected records are untouched, and no action emits any email. -/
theorem timesheet_actions_frame (db : List Timesheet) (selected : Nat → Bool) :
    (make_closed db selected).2 = [] ∧
    (make_active db selected).2 = [] ∧
    (make_pending db selected).2 = [] ∧
    List.Forall₂ (fun t t2 : Timesheet =>
        t2.id = t.id ∧ t2.user = t.user ∧ t2.month = t.month ∧ t2.year = t.year ∧
        (selected t.id = false → t2 = t) ∧
        (selected t.id = true → t2.status = TimesheetStatus.CLOSED))
      db (make_closed db selected).1 ∧
    List.Forall₂ (fun t t2 : Timesheet =>
        t2.id = t.id ∧ t2.user = t.user ∧ t2.month = t.month ∧ t2.year = t.year ∧
        (selected t.id = false → t2 = t) ∧
        (selected t.id = true → t2.status = TimesheetStatus.ACTIVE))
      db (make_active db selected).1 ∧
    List.Forall₂ (fun t t2 : Timesheet =>
        t2.id = t.id ∧ t2.user = t.user ∧ t2.month = t.month ∧ t2.year = t.year ∧
        (selected t.id = false → t2 = t) ∧
        (selected t.id = true → t2.status = TimesheetStatus.PENDING))
      db (make_pending db selected).1 := by
  refine ⟨rfl, rfl, rfl, ?_, ?_, ?_⟩ <;>
    exact forall2_self_map _ _
      (fun t => by by_cases hs : selected t.id <;> simp [hs]) db

/-- Instance of the frame theorem at a concrete database and selection. -/
theorem timesheet_actions_frame_witness :
    (make_closed [sampleTimesheet] (fun _ => true)).2 = [] ∧
    (make_pending [sampleTimesheet] (fun _ => true)).2 = [] := by
  have h := timesheet_actions_frame [sampleTimesheet] (fun _ => true)
  exact ⟨h.1, h.2.2.1⟩

/-- Claim C6: exceptions raised while resolving the polymorphic subtype are
suppressed into the no-subtype case, and on every performance without an
associated `activityperformance` subtype the column methods return their
defaults: `duration` and `description` (and the implicit fall-through of
`contract_role`) yield Python None, while `contract` and `performance_type`
yield the Standby label. -/
theorem performance_parent_admin_defaults (p : Performance) :
    (∀ u : Unit, p.activityperformance_access = Except.error u →
      resolveActivity p = none) ∧
    (resolveActivity p = none →
      PerformanceParentAdmin.duration p = AdminCell.nullCell ∧
      PerformanceParentAdmin.description p = AdminCell.nullCell ∧
      PerformanceParentAdmin.contract p = AdminCell.label "Standby" ∧
      PerformanceParentAdmin.performance_type p = AdminCell.label "Standby" ∧
      PerformanceParentAdmin.contract_role p = AdminCell.nullCell) := by
  constructor
  · intro u hu
    simp [resolveActivity, hu]
  · intro h
    simp [PerformanceParentAdmin.duration, PerformanceParentAdmin.description,
      PerformanceParentAdmin.contract, PerformanceParentAdmin.performance_type,
      PerformanceParentAdmin.contract_role, h]

/-- The defaults theorem applied to a performance whose attribute access
raises. -/
theorem performance_parent_admin_defaults_witness :
    PerformanceParentAdmin.duration samplePerformance = AdminCell.nullCell ∧
    PerformanceParentAdmin.contract samplePerformance = AdminCell.label "Standby" := by
  have h := performance_parent_admin_defaults samplePerformance
  have hn : resolveActivity samplePerformance = none := h.1 () rfl
  exact ⟨(h.2 hn).1, (h.2 hn).2.2.1⟩

/-- Looking a key up across an appended environment. -/
theorem envGet_append (a b : List (String × String)) (q : String) :
    envGet (a ++ b) q
      = match envGet a q with
        | some v => some v
        | none => envGet b q := by
  induction a with
  | nil => simp [envGet]
  | cons kv rest ih =>
    by_cases h : kv.1 = q
    · simp [envGet, h]
    · simp [envGet, h, ih]

/-- `setdefault` makes the key bound: to its old value when present,
otherwise to the supplied default. -/
theorem envGet_setdefault_same (env : List (String × String)) (k v : String) :
    envGet (setdefault env k v) k = some ((envGet env k).getD v) := by
  unfold setdefault
  cases h : envGet env k with
  | some w => simp [h]
  | none => simp [envGet_append, h, envGet]

/-- `setdefault` on one key does not affect lookups of another key. -/
theorem envGet_setdefault_other (env : List (String × String)) (k v q : String)
    (hq : q ≠ k) : envGet (setdefault env k v) q = envGet env q := by
  unfold setdefault
  cases h : envGet env k with
  | some w => rfl
  | none =>
    rw [envGet_append]
    cases h2 : envGet env q with
    | some w => rfl
    | none =>
      simp [envGet]
      exact fun hh => hq hh.symm

/-- Claim C8: the WSGI module binds `DJANGO_SETTINGS_MODULE` to
`ninetofiver.settings` and `DJANGO_CONFIGURATION` to the profile returned by
`get_django_configuration` only when unset, leaves every pre-existing binding
unchanged, and exposes the framework entry point built over the prepared
environment as its `application` attribute. -/
theorem wsgi_module_correct {App : Type} (get_django_configuration : Unit → String)
    (get_wsgi_application : List (String × String) → App)
    (env0 : List (String × String)) :
    envGet (wsgiModule get_django_configuration get_wsgi_application env0).env
        "DJANGO_SETTINGS_MODULE"
      = some ((envGet env0 "DJANGO_SETTINGS_MODULE").getD "ninetofiver.settings") ∧
    envGet (wsgiModule get_django_configuration get_wsgi_application env0).env
        "DJANGO_CONFIGURATION"
      = some ((envGet env0 "DJANGO_CONFIGURATION").getD (get_django_configuration ())) ∧
    (∀ q w, envGet env0 q = some w →
      envGet (wsgiModule get_django_configuration get_wsgi_application env0).env q
        = some w) ∧
    (wsgiModule get_django_configuration get_wsgi_application env0).application
      = get_wsgi_application
          (wsgiModule get_django_configuration get_wsgi_application env0).env := by
  refine ⟨?_, ?_, ?_, rfl⟩
  · show envGet (setdefault (setdefault env0 "DJANGO_SETTINGS_MODULE"
      "ninetofiver.settings") "DJANGO_CONFIGURATION" (get_django_configuration ()))
      "DJANGO_SETTINGS_MODULE" = _
    rw [envGet_setdefault_other _ _ _ _ (by decide), envGet_setdefault_same]
  · show envGet (setdefault (setdefault env0 "DJANGO_SETTINGS_MODULE"
      "ninetofiver.settings") "DJANGO_CONFIGURATION" (get_django_configuration ()))
      "DJANGO_CONFIGURATION" = _
    rw [envGet_setdefault_same,
      envGet_setdefault_other _ _ _ _ (by decide)]
  · intro q w hw
    show envGet (setdefault (setdefault env0 "DJANGO_SETTINGS_MODULE"
      "ninetofiver.settings") "DJANGO_CONFIGURATION" (get_django_configuration ()))
      q = some w
    by_cases h1 : q = "DJANGO_SETTINGS_MODULE"
    · subst h1
      rw [envGet_setdefault_other _ _ _ _ (by decide), envGet_setdefault_same, hw]
      rfl
    · by_cases h2 : q = "DJANGO_CONFIGURATION"
      · subst h2
        rw [envGet_setdefault_same, envGet_setdefault_other _ _ _ _ (by decide), hw]
        rfl
      · rw [envGet_setdefault_other _ _ _ _ h2,
          envGet_setdefault_other _ _ _ _ h1, hw]

/-- The WSGI theorem at a concrete environment where `DJANGO_CONFIGURATION`
is already set: the pre-existing profile survives and the settings module is
filled in. -/
theorem wsgi_module_correct_witness :
    envGet (wsgiModule (fun _ => "Dev") (fun e => e)
        [("DJANGO_CONFIGURATION", "Prod")]).env "DJANGO_SETTINGS_MODULE"
      = some "ninetofiver.settings" ∧
    envGet (wsgiModule (fun _ => "Dev") (fun e => e)
        [("DJANGO_CONFIGURATION", "Prod")]).env "DJANGO_CONFIGURATION"
      = some "Prod" := by
  have h := wsgi_module_correct (fun _ => "Dev") (fun e => e)
    [("DJANGO_CONFIGURATION", "Prod")]
  refine ⟨?_, ?_⟩
  · rw [h.1]; decide
  · rw [h.2.1]; decide

/-- On a leave with at least one leave date, `send_notification_email`
succeeds and produces exactly `emailOf`. -/
theorem send_notification_email_nonempty (l : Leave) (s : String)
    (h : l.leavedate_set ≠ []) :
    send_notification_email l s = some (emailOf l s) := by
  unfold send_notification_email emailOf
  cases hd : l.leavedate_set with
  | nil => exact absurd hd h
  | cons a as =>
    have hlast : (a :: as).getLast? = some ((a :: as).getLast (by simp)) := by
      simp [List.getLast?_eq_getLast]
    simp [hd, hlast, List.getLastD_eq_getLast?]

/-- Every message `send_notification_email` hands to `send_mail` carries
`fail_silently=False`. -/
theorem send_notification_email_not_silent (l : Leave) (s : String) (e : Email)
    (h : send_notification_email l s = some e) : e.fail_silently = false := by
  unfold send_notification_email at h
  cases h1 : l.leavedate_set.head? with
  | none => simp [h1] at h
  | some f =>
    cases h2 : l.leavedate_set.getLast? with
    | none => simp [h1, h2] at h
    | some la =>
      simp [h1, h2] at h
      subst h
      rfl

/-- When every selected leave has leave dates and the backend accepts every
message, the notification loop delivers exactly one email per leave, in
order, and finishes cleanly. -/
theorem sendAll_all_delivered (deliverOk : Email → Bool) (s : String)
    (qs : List Leave) :
    (∀ l ∈ qs, l.leavedate_set ≠ []) →
    (∀ l ∈ qs, deliverOk (emailOf l s) = true) →
    sendAll deliverOk s qs = (qs.map (fun l => emailOf l s), true) := by
  induction qs with
  | nil => intro _ _; rfl
  | cons l rest ih =>
    intro hd hok
    have h1 := send_notification_email_nonempty l s (hd l (List.mem_cons_self l rest))
    have h2 := hok l (List.mem_cons_self l rest)
    have ih2 := ih (fun x hx => hd x (List.mem_cons_of_mem _ hx))
      (fun x hx => hok x (List.mem_cons_of_mem _ hx))
    simp [sendAll, h1, h2, ih2]

/-- When the backend accepts the messages of a prefix of leaves with leave
dates and then refuses the message of the next leave, the loop delivers
exactly the prefix and aborts: the leaves after the refused one get
nothing. -/
theorem sendAll_fails_at (deliverOk : Email → Bool) (s : String) (bad : Leave)
    (post : List Leave) (hbad : bad.leavedate_set ≠ [])
    (hfail : deliverOk (emailOf bad s) = false) :
    ∀ pre : List Leave, (∀ l ∈ pre, l.leavedate_set ≠ []) →
      (∀ l ∈ pre, deliverOk (emailOf l s) = true) →
      sendAll deliverOk s (pre ++ bad :: post)
        = (pre.map (fun l => emailOf l s), false) := by
  intro pre
  induction pre with
  | nil =>
    intro _ _
    simp [sendAll, send_notification_email_nonempty bad s hbad, hfail]
  | cons l rest ih =>
    intro hd hok
    have h1 := send_notification_email_nonempty l s (hd l (List.mem_cons_self l rest))
    have h2 := hok l (List.mem_cons_self l rest)
    have ih2 := ih (fun x hx => hd x (List.mem_cons_of_mem _ hx))
      (fun x hx => hok x (List.mem_cons_of_mem _ hx))
    simp [sendAll, h1, h2, ih2]

/-- If some selected leave has no leave dates, the notification loop raises:
it does not finish cleanly. -/
theorem sendAll_false_of_empty (deliverOk : Email → Bool) (s : String)
    (qs : List Leave) : (∃ l ∈ qs, l.leavedate_set = []) →
    (sendAll deliverOk s qs).2 = false := by
  induction qs with
  | nil =>
    rintro ⟨l, hl, _⟩
    exact absurd hl (List.not_mem_nil l)
  | cons a rest ih =>
    rintro ⟨l, hl, hempty⟩
    rcases List.mem_cons.mp hl with h | h
    · subst h
      have hn : send_notification_email l s = none := by
        simp [send_notification_email, hempty]
      simp [sendAll, hn]
    · cases h1 : send_notification_email a s with
      | none => simp [sendAll, h1]
      | some e =>
        by_cases h2 : deliverOk e
        · simp [sendAll, h1, h2]
          exact ih ⟨l, h, hempty⟩
        · simp [sendAll, h1, h2]

/-- The email built by the code meets the content requirements of the
specification. -/
theorem emailOf_meets_spec (l : Leave) (s : String) :
    leaveEmailSpec l (emailOf l s) := by
  refine ⟨rfl, rfl, ?_, ?_⟩
  · refine ⟨"Dear " ++ l.user.first_name ++ "\n\nyour ",
      " from \n" ++ toString (l.leavedate_set.headD ⟨⟨0, 0⟩, ⟨0, 0⟩⟩).starts_at.date
        ++ " to " ++ toString (l.leavedate_set.getLastD ⟨⟨0, 0⟩, ⟨0, 0⟩⟩).ends_at.date
        ++ "\nhas been " ++ s ++ ".\n\nKind regards\nAn inocent bot", ?_⟩
    simp [emailOf, notificationEmail, String.append_assoc]
  · refine ⟨"Dear " ++ l.user.first_name ++ "\n\nyour " ++ l.leave_type ++ " from \n",
      "\nhas been " ++ s ++ ".\n\nKind regards\nAn inocent bot", ?_⟩
    simp [emailOf, notificationEmail, String.append_assoc]

/-- Claim C1: on a selection of leaves that all carry leave dates, and with a
mail backend that accepts every message, `make_approved` sets every selected
status to `APPROVED` (`make_rejected` to `REJECTED`) and sends exactly one
notification email per selected leave, addressed to the user of that leave,
whose content carries the leave type, the description, and the date range
from the date of the first leave date start to the date of the last leave
date end. -/
theorem leave_bulk_actions_correct (deliverOk : Email → Bool) (qs : List Leave)
    (hdates : ∀ l ∈ qs, l.leavedate_set ≠ [])
    (hmail : ∀ e : Email, deliverOk e = true) :
    (make_approved deliverOk qs).1
      = qs.map (fun x => { x with status := LeaveStatus.APPROVED }) ∧
    (∀ l ∈ (make_approved deliverOk qs).1, l.status = LeaveStatus.APPROVED) ∧
    (make_approved deliverOk qs).2.1 = qs.map (fun l => emailOf l "approved") ∧
    (make_approved deliverOk qs).2.2 = true ∧
    List.Forall₂ leaveEmailSpec qs (make_approved deliverOk qs).2.1 ∧
    (make_rejected deliverOk qs).1
      = qs.map (fun x => { x with status := LeaveStatus.REJECTED }) ∧
    (∀ l ∈ (make_rejected deliverOk qs).1, l.status = LeaveStatus.REJECTED) ∧
    (make_rejected deliverOk qs).2.1 = qs.map (fun l => emailOf l "rejected") ∧
    (make_rejected deliverOk qs).2.2 = true ∧
    List.Forall₂ leaveEmailSpec qs (make_rejected deliverOk qs).2.1 := by
  have happ := sendAll_all_delivered deliverOk "approved"
    (qs.map (fun x => { x with status := LeaveStatus.APPROVED }))
    (fun x hx => by
      rcases List.mem_map.mp hx with ⟨y, hy, rfl⟩
      exact hdates y hy)
    (fun x _ => hmail _)
  have hrej := sendAll_all_delivered deliverOk "rejected"
    (qs.map (fun x => { x with status := LeaveStatus.REJECTED }))
    (fun x hx => by
      rcases List.mem_map.mp hx with ⟨y, hy, rfl⟩
      exact hdates y hy)
    (fun x _ => hmail _)
  have he1 : (make_approved deliverOk qs).2.1
      = qs.map (fun l => emailOf l "approved") := by
    show (sendAll deliverOk "approved"
      (qs.map (fun x => { x with status := LeaveStatus.APPROVED }))).1 = _
    rw [happ, List.map_map]
    rfl
  have he2 : (make_rejected deliverOk qs).2.1
      = qs.map (fun l => emailOf l "rejected") := by
    show (sendAll deliverOk "rejected"
      (qs.map (fun x => { x with status := LeaveStatus.REJECTED }))).1 = _
    rw [hrej, List.map_map]
    rfl
  refine ⟨rfl, ?_, he1, ?_, ?_, rfl, ?_, he2, ?_, ?_⟩
  · intro l hl
    rcases List.mem_map.mp hl with ⟨y, _, rfl⟩
    rfl
  · show (sendAll deliverOk "approved"
      (qs.map (fun x => { x with status := LeaveStatus.APPROVED }))).2 = true
    rw [happ]
  · rw [he1]
    exact forall2_self_map _ _ (fun l => emailOf_meets_spec l "approved") qs
  · intro l hl
    rcases List.mem_map.mp hl with ⟨y, _, rfl⟩
    rfl
  · show (sendAll deliverOk "rejected"
      (qs.map (fun x => { x with status := LeaveStatus.REJECTED }))).2 = true
    rw [hrej]
  · rw [he2]
    exact forall2_self_map _ _ (fun l => emailOf_meets_spec l "rejected") qs

/-- The bulk-approval theorem at a concrete one-leave selection with a backend
accepting everything. -/
theorem leave_bulk_actions_correct_witness :
    (make_approved (fun _ => true) [sampleLeave]).1
      = [{ sampleLeave with status := LeaveStatus.APPROVED }] ∧
    (make_approved (fun _ => true) [sampleLeave]).2.1
      = [emailOf sampleLeave "approved"] ∧
    (make_approved (fun _ => true) [sampleLeave]).2.2 = true := by
  have h := leave_bulk_actions_correct (fun _ => true) [sampleLeave]
    (by decide) (fun e => rfl)
  exact ⟨h.1, h.2.2.1, h.2.2.2.1⟩

/-- Claim C7: `send_mail` is invoked with `fail_silently=False`, and when the
backend refuses the message of some selected leave either leave bulk action
has already rewritten every selected status (the update runs before the
loop), the leaves before the refused one have received their emails, and the
leaves after it receive none; the exception escapes the action. Stated for
`make_approved` and `make_rejected` alike. -/
theorem leave_mail_failure_propagates (deliverOk : Email → Bool)
    (pre : List Leave) (bad : Leave) (post : List Leave)
    (hdpre : ∀ l ∈ pre, l.leavedate_set ≠ [])
    (hdbad : bad.leavedate_set ≠ [])
    (hok : ∀ l ∈ pre, deliverOk (emailOf l "approved") = true)
    (hfail : deliverOk (emailOf bad "approved") = false)
    (hokR : ∀ l ∈ pre, deliverOk (emailOf l "rejected") = true)
    (hfailR : deliverOk (emailOf bad "rejected") = false) :
    (∀ (l : Leave) (s : String) (e : Email),
      send_notification_email l s = some e → e.fail_silently = false) ∧
    (make_approved deliverOk (pre ++ bad :: post)).1
      = (pre ++ bad :: post).map
          (fun x => { x with status := LeaveStatus.APPROVED }) ∧
    (make_approved deliverOk (pre ++ bad :: post)).2.1
      = pre.map (fun l => emailOf l "approved") ∧
    (make_approved deliverOk (pre ++ bad :: post)).2.2 = false ∧
    (make_rejected deliverOk (pre ++ bad :: post)).1
      = (pre ++ bad :: post).map
          (fun x => { x with status := LeaveStatus.REJECTED }) ∧
    (make_rejected deliverOk (pre ++ bad :: post)).2.1
      = pre.map (fun l => emailOf l "rejected") ∧
    (make_rejected deliverOk (pre ++ bad :: post)).2.2 = false := by
  have hmap : (pre ++ bad :: post).map
      (fun x : Leave => { x with status := LeaveStatus.APPROVED })
      = pre.map (fun x => { x with status := LeaveStatus.APPROVED })
        ++ { bad with status := LeaveStatus.APPROVED }
          :: post.map (fun x => { x with status := LeaveStatus.APPROVED }) := by
    simp
  have hmapR : (pre ++ bad :: post).map
      (fun x : Leave => { x with status := LeaveStatus.REJECTED })
      = pre.map (fun x => { x with status := LeaveStatus.REJECTED })
        ++ { bad with status := LeaveStatus.REJECTED }
          :: post.map (fun x => { x with status := LeaveStatus.REJECTED }) := by
    simp
  have hsend := sendAll_fails_at deliverOk "approved"
    { bad with status := LeaveStatus.APPROVED }
    (post.map (fun x => { x with status := LeaveStatus.APPROVED }))
    hdbad hfail
    (pre.map (fun x => { x with status := LeaveStatus.APPROVED }))
    (fun x hx => by
      rcases List.mem_map.mp hx with ⟨y, hy, rfl⟩
      exact hdpre y hy)
    (fun x hx => by
      rcases List.mem_map.mp hx with ⟨y, hy, rfl⟩
      exact hok y hy)
  have hsendR := sendAll_fails_at deliverOk "rejected"
    { bad with status := LeaveStatus.REJECTED }
    (post.map (fun x => { x with status := LeaveStatus.REJECTED }))
    hdbad hfailR
    (pre.map (fun x => { x with status := LeaveStatus.REJECTED }))
    (fun x hx => by
      rcases List.mem_map.mp hx with ⟨y, hy, rfl⟩
      exact hdpre y hy)
    (fun x hx => by
      rcases List.mem_map.mp hx with ⟨y, hy, rfl⟩
      exact hokR y hy)
  refine ⟨send_notification_email_not_silent, rfl, ?_, ?_, rfl, ?_, ?_⟩
  · show (sendAll deliverOk "approved" ((pre ++ bad :: post).map
      (fun x => { x with status := LeaveStatus.APPROVED }))).1 = _
    rw [hmap, hsend, List.map_map]
    rfl
  · show (sendAll deliverOk "approved" ((pre ++ bad :: post).map
      (fun x => { x with status := LeaveStatus.APPROVED }))).2 = false
    rw [hmap, hsend]
  · show (sendAll deliverOk "rejected" ((pre ++ bad :: post).map
      (fun x => { x with status := LeaveStatus.REJECTED }))).1 = _
    rw [hmapR, hsendR, List.map_map]
    rfl
  · show (sendAll deliverOk "rejected" ((pre ++ bad :: post).map
      (fun x => { x with status := LeaveStatus.REJECTED }))).2 = false
    rw [hmapR, hsendR]

/-- The failure theorem at a concrete selection whose single message the
backend refuses: under each action the status is already rewritten, no email
is recorded, and neither action finishes cleanly. -/
theorem leave_mail_failure_propagates_witness :
    (make_approved (fun _ => false) [sampleLeaveTwo]).1
      = [{ sampleLeaveTwo with status := LeaveStatus.APPROVED }] ∧
    (make_approved (fun _ => false) [sampleLeaveTwo]).2.1 = [] ∧
    (make_approved (fun _ => false) [sampleLeaveTwo]).2.2 = false ∧
    (make_rejected (fun _ => false) [sampleLeaveTwo]).1
      = [{ sampleLeaveTwo with status := LeaveStatus.REJECTED }] ∧
    (make_rejected (fun _ => false) [sampleLeaveTwo]).2.1 = [] ∧
    (make_rejected (fun _ => false) [sampleLeaveTwo]).2.2 = false := by
  have h := leave_mail_failure_propagates (fun _ => false) [] sampleLeaveTwo []
    (fun l hl => absurd hl (List.not_mem_nil l)) (by decide)
    (fun l hl => absurd hl (List.not_mem_nil l)) rfl
    (fun l hl => absurd hl (List.not_mem_nil l)) rfl
  exact ⟨h.2.1, h.2.2.1, h.2.2.2.1, h.2.2.2.2.1, h.2.2.2.2.2.1, h.2.2.2.2.2.2⟩

/-- Claim C9: a selection containing a leave without leave dates makes the
bulk approve and reject actions raise while building the notification email,
and only after the status of every selected leave has already been
rewritten. -/
theorem leave_actions_crash_on_missing_leavedates (deliverOk : Email → Bool)
    (qs : List Leave) (l : Leave) (hl : l ∈ qs) (hempty : l.leavedate_set = []) :
    (make_approved deliverOk qs).1
      = qs.map (fun x => { x with status := LeaveStatus.APPROVED }) ∧
    (make_approved deliverOk qs).2.2 = false ∧
    (make_rejected deliverOk qs).1
      = qs.map (fun x => { x with status := LeaveStatus.REJECTED }) ∧
    (make_rejected deliverOk qs).2.2 = false := by
  refine ⟨rfl, ?_, rfl, ?_⟩
  · show (sendAll deliverOk "approved"
      (qs.map (fun x => { x with status := LeaveStatus.APPROVED }))).2 = false
    exact sendAll_false_of_empty _ _ _
      ⟨{ l with status := LeaveStatus.APPROVED },
        List.mem_map_of_mem _ hl, hempty⟩
  · show (sendAll deliverOk "rejected"
      (qs.map (fun x => { x with status := LeaveStatus.REJECTED }))).2 = false
    exact sendAll_false_of_empty _ _ _
      ⟨{ l with status := LeaveStatus.REJECTED },
        List.mem_map_of_mem _ hl, hempty⟩

/-- The crash theorem at a concrete selection holding one leave without leave
dates. -/
theorem leave_actions_crash_witness :
    (make_approved (fun _ => true) [sampleLeaveNoDates]).1
      = [{ sampleLeaveNoDates with status := LeaveStatus.APPROVED }] ∧
    (make_approved (fun _ => true) [sampleLeaveNoDates]).2.2 = false := by
  have h := leave_actions_crash_on_missing_leavedates (fun _ => true)
    [sampleLeaveNoDates] sampleLeaveNoDates (by decide) rfl
  exact ⟨h.1, h.2.1⟩



